import Mathlib

/-!
Shallow embedding of the OCR MCP server core (`ocr_engine.py` and `server.py`).

Conventions of the embedding:
* Python floats are modelled as rationals (`ℚ`); the float representation and
  the tie-breaking rule of Python's `round` are abstracted by Mathlib's `round`.
* The external detector call `self._ocr(image)` either raises (modelled by
  `Except.error msg`, where `msg` is the `str` of the exception; this case also
  stands for any exception raised while structuring its duck-typed output,
  which the typed embedding makes total) or returns a pair of a possibly-null
  detection list and a possibly-null list of per-stage times.
* The external collaborators (base64 codec, image codec, color conversion,
  filesystem predicates, detector) are fields of an `Env` record; the handlers
  and the engine are total Lean functions of the `Env`, so "never raises past
  its boundary" is inherent and each failure path is an explicit returned value.
* A Python `dict` response `{text, blocks, error?}` is a `Response` record in
  which `error = none` models the absence of the `"error"` key.
-/

/-- Raw image bytes, kept opaque (the codec is external). -/
abbrev Bytes := List Nat

/-- An in-memory decoded image: its PIL color `mode` string plus opaque pixel
content. Only `mode` is inspected by the code under verification. -/
structure Image where
  mode : String
  content : List Nat
  deriving DecidableEq

/-- One detected text block (`OCRBlock` in `ocr_engine.py`): recognized text,
confidence, and the quadrilateral box as a list of (x, y) points. -/
structure OCRBlock where
  text : String
  confidence : ℚ
  box : List (ℚ × ℚ)
  deriving DecidableEq

/-- Result of OCR processing (`OCRResult` in `ocr_engine.py`). `error = none`
models the Python field defaulting to `None`. -/
structure OCRResult where
  text : String
  blocks : List OCRBlock
  elapsed_seconds : ℚ
  error : Option String
  deriving DecidableEq

/-- Serialized response mapping `{text, blocks, error?}` produced by
`OCRResult.to_dict` and by the handlers' early-error returns; `error = none`
models the `"error"` key being absent from the dict. -/
structure Response where
  text : String
  blocks : List OCRBlock
  error : Option String
  deriving DecidableEq

/-- Models `OCRResult.to_dict`: rebuild each block as a `{text, confidence, box}`
mapping and add the `"error"` key only when `self.error` is truthy — Python's
`if self.error:` treats both `None` and the empty string as falsy. -/
def OCRResult.to_dict (r : OCRResult) : Response :=
  { text := r.text
    blocks := r.blocks.map (fun b => { text := b.text, confidence := b.confidence, box := b.box })
    error := match r.error with
      | some e => if e = "" then none else some e
      | none => none }

/-- One raw detection emitted by the external detector: a box (list of points),
the recognized text, and a confidence value, i.e. `item[0]`, `item[1]`,
`item[2]` in `OCREngine.process`. -/
structure RawDetection where
  box : List (ℚ × ℚ)
  text : String
  confidence : ℚ
  deriving DecidableEq

/-- Models Python `round(float(c), 3)`: rounding to 3 decimal places. The
float representation and Python's half-to-even tie rule are abstracted by
Mathlib's `round`; no claim depends on the tie-breaking direction. -/
def round3 (q : ℚ) : ℚ := ((round (1000 * q) : ℤ) : ℚ) / 1000

/-- Loop body of `OCREngine.process`: build an `OCRBlock` from one raw
detection — confidence coerced and rounded to 3 decimals, each box point
coerced to a float pair, text carried through unchanged. -/
def mkBlock (r : RawDetection) : OCRBlock :=
  { text := r.text
    confidence := round3 r.confidence
    box := r.box.map (fun p => (p.1, p.2)) }

/-- Models `sum(elapsed_list) if elapsed_list else 0`: both `None` and the
empty list are falsy and give 0; otherwise the sum of the per-stage times. -/
def totalElapsed : Option (List ℚ) → ℚ
  | none => 0
  | some ts => if ts.isEmpty then 0 else ts.sum

/-- Outcome of the external detector call `self._ocr(image)`: an exception
(with its message) or a pair of the possibly-null raw detection list and the
possibly-null per-stage time list. -/
abbrev DetectOutcome := Except String (Option (List RawDetection) × Option (List ℚ))

/-- Models `OCREngine.process` as a function of the detector-call outcome.
The `try` body unpacks the outcome, computes the total elapsed time, returns
the "no text found" success when the raw list is falsy (`if not raw_result:`),
and otherwise builds blocks in emission order and joins their texts with
newlines; the `except` branch returns the error-shaped result with the
exception's message. -/
def process (outcome : DetectOutcome) : OCRResult :=
  match outcome with
  | .error e => { text := "", blocks := [], elapsed_seconds := 0, error := some e }
  | .ok (raw, times) =>
    let total := totalElapsed times
    match raw with
    | none => { text := "", blocks := [], elapsed_seconds := total, error := none }
    | some items =>
      if items.isEmpty then
        { text := "", blocks := [], elapsed_seconds := total, error := none }
      else
        { text := String.intercalate "\n" (items.map RawDetection.text)
          blocks := items.map mkBlock
          elapsed_seconds := total
          error := none }

/-- External collaborators of the handlers in `server.py`, injected as a
record: base64 decoding, image opening (from bytes and from a path), RGB
conversion, the filesystem predicates `os.path.exists` / `os.path.isfile`,
and the engine's detector session. Fallible operations return `Except`, the
error carrying the exception's message. -/
structure Env where
  b64decode : String → Except String Bytes
  imageOpen : Bytes → Except String Image
  imageOpenPath : String → Except String Image
  convertRGB : Image → Image
  detect : Image → DetectOutcome
  pathExists : String → Bool
  isfile : String → Bool

/-- Models Python `s.startswith(pre)`: character-level prefix test. -/
def pyStartswith (s pre : String) : Bool :=
  decide (s.toList.take pre.toList.length = pre.toList)

/-- Models Python `"," in s`. -/
def pyHasComma (s : String) : Bool := s.toList.contains ','

/-- Models `s.split(",", 1)[1]`: everything after the first comma. -/
def afterFirstComma (s : String) : String :=
  String.mk ((s.toList.dropWhile (fun c => c ≠ ',')).tail)

/-- Data-URI handling at the top of `ocr_from_base64`: when the string starts
with `data:`, keep only what follows the first comma, failing with the format
error when no comma exists; otherwise keep the string unchanged. -/
def stripDataURI (s : String) : Except String String :=
  if pyStartswith s "data:" then
    if pyHasComma s then .ok (afterFirstComma s) else .error "Invalid data URI format"
  else .ok s

/-- The tuple `("RGBA", "P", "LA", "L")` of modes converted to RGB in both
handlers. -/
def rgbConvertModes : List String := ["RGBA", "P", "LA", "L"]

/-- Models `if img.mode in ("RGBA", "P", "LA", "L"): img = img.convert("RGB")`. -/
def normalizeMode (env : Env) (img : Image) : Image :=
  if rgbConvertModes.contains img.mode then env.convertRGB img else img

/-- Models `os.path.isabs` on POSIX: the path starts with a slash. -/
def isabs (p : String) : Bool := pyStartswith p "/"

/-- Models the `ocr_from_base64` tool of `server.py`: strip an optional data
URI prefix, base64-decode, open the bytes as an image, normalize the color
mode, run the engine, and serialize the result; each failure is returned as an
error-shaped response. -/
def ocr_from_base64 (env : Env) (image_base64 : String) : Response :=
  match stripDataURI image_base64 with
  | .error e => { text := "", blocks := [], error := some e }
  | .ok s =>
    match env.b64decode s with
    | .error e => { text := "", blocks := [], error := some ("Invalid base64: " ++ e) }
    | .ok bs =>
      match env.imageOpen bs with
      | .error e => { text := "", blocks := [], error := some ("Invalid image format: " ++ e) }
      | .ok img => (process (env.detect (normalizeMode env img))).to_dict

/-- Models the `ocr_from_path` tool of `server.py`: validate that the path is
non-empty (`if not file_path:`), absolute, existing and a regular file, in
that order and short-circuiting; then open the file as an image, normalize the
color mode, run the engine and serialize the result. -/
def ocr_from_path (env : Env) (file_path : String) : Response :=
  if file_path = "" then
    { text := "", blocks := [], error := some "File path is required" }
  else if isabs file_path = false then
    { text := "", blocks := [], error := some "File path must be absolute" }
  else if env.pathExists file_path = false then
    { text := "", blocks := [], error := some ("File not found: " ++ file_path) }
  else if env.isfile file_path = false then
    { text := "", blocks := [], error := some ("Not a file: " ++ file_path) }
  else
    match env.imageOpenPath file_path with
    | .error e => { text := "", blocks := [], error := some ("Failed to open image: " ++ e) }
    | .ok img => (process (env.detect (normalizeMode env img))).to_dict

/-- A Python line-boundary character: the set `str.splitlines` splits on
(LF, CR, VT, FF, FS, GS, RS, NEL, LINE SEPARATOR, PARAGRAPH SEPARATOR). -/
def isLineBreak (c : Char) : Bool :=
  c = '\n' || c = '\r' || c = '\x0b' || c = '\x0c' ||
  c = '\x1c' || c = '\x1d' || c = '\x1e' || c = '\u0085' ||
  c = '\u2028' || c = '\u2029'

/-- Worker for `pySplitlines`: `cur` is the reversed current line, emitted at
each boundary character, and the final partial line is emitted only when
non-empty. The `skip` flag is set right after a `\r` so that an immediately
following `\n` is consumed silently, making `\r\n` count as one boundary. -/
def splitlinesGo (skip : Bool) (cur : List Char) : List Char → List (List Char)
  | [] => if cur = [] then [] else [cur.reverse]
  | c :: rest =>
    if skip = true ∧ c = '\n' then splitlinesGo false cur rest
    else if isLineBreak c then cur.reverse :: splitlinesGo (c == '\r') [] rest
    else splitlinesGo false (c :: cur) rest

/-- Models Python `s.splitlines()` on the character list of `s`. -/
def pySplitlines (s : String) : List (List Char) := splitlinesGo false [] s.toList

/-- A sample raw detection with a 4-point box, used to instantiate theorems. -/
def sampleDet : RawDetection :=
  { box := [(0, 0), (1, 0), (1, 1), (0, 1)], text := "hi", confidence := 1 }

/-- A second sample raw detection. -/
def sampleDet2 : RawDetection :=
  { box := [(0, 2), (1, 2), (1, 3), (0, 3)], text := "yo", confidence := 1 }

/-- A sample environment whose detector finds no text and whose codec calls
all succeed. -/
def envDetectNone : Env :=
  { b64decode := fun _ => .ok []
    imageOpen := fun _ => .ok { mode := "RGB", content := [] }
    imageOpenPath := fun _ => .ok { mode := "RGB", content := [] }
    convertRGB := fun img => { mode := "RGB", content := img.content }
    detect := fun _ => .ok (none, none)
    pathExists := fun _ => true
    isfile := fun _ => true }

/-- A sample environment whose base64 decoding fails. -/
def envB64Fail : Env := { envDetectNone with b64decode := fun _ => .error "bad padding" }

/-- A sample environment whose image opening fails. -/
def envImgFail : Env := { envDetectNone with imageOpen := fun _ => .error "cannot identify" }

/-- A sample environment in which no path exists. -/
def envNoFile : Env := { envDetectNone with pathExists := fun _ => false, isfile := fun _ => false }

/-- A sample environment in which paths exist but are not regular files. -/
def envDir : Env := { envDetectNone with isfile := fun _ => false }

/-- An environment whose decoded images are palette-mode (`P`) and whose
detector finds text on a `P`-mode image but none on its RGB conversion,
exhibiting the documented mode-sensitivity of the detector. -/
def envModeP : Env :=
  { envDetectNone with
    imageOpen := fun _ => .ok { mode := "P", content := [] }
    detect := fun img =>
      if img.mode = "P" then .ok (some [sampleDet], none) else .ok (none, none) }

/-- Newline-joined list of character lists, mirroring `"\n".join` at the
character level; used to relate `String.intercalate` to `pySplitlines`. -/
def joinNL : List (List Char) → List Char
  | [] => []
  | [t] => t
  | t :: ts => t ++ '\n' :: joinNL ts

/-- Unfolding of `process` on a detector exception. -/
theorem process_none (t : Option (List ℚ)) :
    process (Except.ok (none, t)) =
      { text := "", blocks := [], elapsed_seconds := totalElapsed t, error := none } := rfl

/-- Unfolding of `process` on an empty raw detection list. -/
theorem process_nil (t : Option (List ℚ)) :
    process (Except.ok (some [], t)) =
      { text := "", blocks := [], elapsed_seconds := totalElapsed t, error := none } := rfl

/-- Unfolding of `process` on a non-empty raw detection list. -/
theorem process_cons (a : RawDetection) (items : List RawDetection) (t : Option (List ℚ)) :
    process (Except.ok (some (a :: items), t)) =
      { text := String.intercalate "\n" ((a :: items).map RawDetection.text)
        blocks := (a :: items).map mkBlock
        elapsed_seconds := totalElapsed t
        error := none } := rfl

/-- Whenever `process` reports an error, the result is otherwise empty. -/
theorem process_error_empty (o : DetectOutcome) (err : String) (h : (process o).error = some err) :
    (process o).text = "" ∧ (process o).blocks = [] := by
  match o with
  | .error e => exact ⟨rfl, rfl⟩
  | .ok (none, t) => rw [process_none] at h; simp at h
  | .ok (some [], t) => rw [process_nil] at h; simp at h
  | .ok (some (a :: its), t) => rw [process_cons] at h; simp at h

/-- Whenever the serialized engine result carries the error key, its text and
blocks are empty. -/
theorem to_dict_error_empty (o : DetectOutcome) (err : String)
    (h : ((process o).to_dict).error = some err) :
    ((process o).to_dict).text = "" ∧ ((process o).to_dict).blocks = [] := by
  cases ho : (process o).error with
  | none => exfalso; simp [OCRResult.to_dict, ho] at h
  | some e =>
    obtain ⟨ht, hb⟩ := process_error_empty o e ho
    by_cases he : e = ""
    · exfalso; simp [OCRResult.to_dict, ho, he] at h
    · simp [OCRResult.to_dict, ht, hb]

/-- Rounding to three decimals preserves nonnegativity. -/
theorem round3_nonneg (q : ℚ) (h0 : 0 ≤ q) : 0 ≤ round3 q := by
  have h : (0 : ℤ) ≤ round (1000 * q) := by
    rw [round_eq]
    refine Int.le_floor.mpr ?_
    push_cast
    linarith
  unfold round3
  positivity

/-- Rounding to three decimals preserves being at most one. -/
theorem round3_le_one (q : ℚ) (h1 : q ≤ 1) : round3 q ≤ 1 := by
  have h : round (1000 * q) ≤ 1000 := by
    rw [round_eq]
    have hlt : ⌊1000 * q + 1 / 2⌋ < 1001 := by
      refine Int.floor_lt.mpr ?_
      push_cast
      linarith
    omega
  unfold round3
  rw [div_le_one (by norm_num : (0 : ℚ) < 1000)]
  exact_mod_cast h

/-- A non-boundary character is accumulated into the current line. -/
theorem splitlinesGo_noBreak (c : Char) (cur rest : List Char) (h : isLineBreak c = false) :
    splitlinesGo false cur (c :: rest) = splitlinesGo false (c :: cur) rest := by
  simp [splitlinesGo, h]

/-- Consuming a boundary-free chunk only extends the current line. -/
theorem splitlinesGo_append (l : List Char) (hl : ∀ c ∈ l, isLineBreak c = false) :
    ∀ cur rest, splitlinesGo false cur (l ++ rest) = splitlinesGo false (l.reverse ++ cur) rest := by
  induction l with
  | nil => intro cur rest; simp
  | cons c l ih =>
    intro cur rest
    have hc : isLineBreak c = false := hl c (List.mem_cons_self c l)
    have hl' : ∀ d ∈ l, isLineBreak d = false := fun d hd => hl d (List.mem_cons_of_mem c hd)
    rw [List.cons_append, splitlinesGo_noBreak c cur _ hc, ih hl' (c :: cur) rest]
    simp

/-- Terminating the scan yields at most one final line. -/
theorem splitlinesGo_nil_le (cur : List Char) : (splitlinesGo false cur []).length ≤ 1 := by
  unfold splitlinesGo
  split <;> simp

/-- Splitting a newline-join of boundary-free lines yields at most as many
lines as were joined. -/
theorem splitlinesGo_joinNL_le (texts : List (List Char)) (hne : texts ≠ [])
    (hl : ∀ t ∈ texts, ∀ c ∈ t, isLineBreak c = false) :
    ∀ cur, (splitlinesGo false cur (joinNL texts)).length ≤ texts.length := by
  induction texts with
  | nil => exact absurd rfl hne
  | cons t ts ih =>
    intro cur
    cases ts with
    | nil =>
      have ht : ∀ c ∈ t, isLineBreak c = false := hl t (List.mem_cons_self t [])
      have hj : joinNL [t] = t ++ [] := by simp [joinNL]
      rw [hj, splitlinesGo_append t ht cur []]
      exact le_trans (splitlinesGo_nil_le _) (by simp)
    | cons t' ts' =>
      have ht : ∀ c ∈ t, isLineBreak c = false := hl t (List.mem_cons_self t _)
      have hl' : ∀ u ∈ t' :: ts', ∀ c ∈ u, isLineBreak c = false :=
        fun u hu => hl u (List.mem_cons_of_mem t hu)
      have hj : joinNL (t :: t' :: ts') = t ++ '\n' :: joinNL (t' :: ts') := rfl
      rw [hj, splitlinesGo_append t ht cur _]
      have hstep : splitlinesGo false (t.reverse ++ cur) ('\n' :: joinNL (t' :: ts')) =
          (t.reverse ++ cur).reverse :: splitlinesGo false [] (joinNL (t' :: ts')) := rfl
      rw [hstep]
      have := ih (List.cons_ne_nil t' ts') hl' []
      simpa using Nat.succ_le_succ this

/-- Prepending a line to a newline-join associates as expected. -/
theorem joinNL_cons_append (x y : List Char) (ys : List (List Char)) :
    joinNL ((x ++ '\n' :: y) :: ys) = x ++ '\n' :: joinNL (y :: ys) := by
  cases ys with
  | nil => rfl
  | cons z zs => simp [joinNL]

/-- The character list of the accumulator-based intercalate worker. -/
theorem intercalate_go_toList (as : List String) :
    ∀ acc : String,
      (String.intercalate.go acc "\n" as).toList = joinNL ((acc :: as).map String.toList) := by
  induction as with
  | nil => intro acc; rfl
  | cons a as ih =>
    intro acc
    have h1 : String.intercalate.go acc "\n" (a :: as) =
        String.intercalate.go (acc ++ "\n" ++ a) "\n" as := rfl
    rw [h1, ih (acc ++ "\n" ++ a)]
    have h2 : (acc ++ "\n" ++ a).toList = acc.toList ++ '\n' :: a.toList := by
      show (acc ++ "\n" ++ a).data = acc.data ++ '\n' :: a.data
      simp
    simp only [List.map_cons, h2]
    exact joinNL_cons_append _ _ _

/-- The character list of a newline intercalation is the newline join of the
character lists. -/
theorem intercalate_nl_toList (l : List String) :
    (String.intercalate "\n" l).toList = joinNL (l.map String.toList) := by
  cases l with
  | nil => rfl
  | cons a as =>
    have h : String.intercalate "\n" (a :: as) = String.intercalate.go a "\n" as := rfl
    rw [h, intercalate_go_toList as a]

/-- C1: for any exception during detection or result structuring, `process`
returns a Result with empty text, empty blocks, `elapsed_seconds = 0`, and
the error field set to the failure's description; and for every Result that
`process` returns, a present error implies empty text and empty blocks. -/
theorem C1_engine_error_boundary :
    (∀ e : String, process (Except.error e) =
      { text := "", blocks := [], elapsed_seconds := 0, error := some e })
    ∧ ∀ (o : DetectOutcome) (err : String), (process o).error = some err →
        (process o).text = "" ∧ (process o).blocks = [] :=
  ⟨fun _ => rfl, process_error_empty⟩

/-- Witness for C1 at a concrete detector exception. -/
theorem C1_witness :
    (process (Except.error "boom")).text = "" ∧ (process (Except.error "boom")).blocks = [] :=
  C1_engine_error_boundary.2 (Except.error "boom") "boom" rfl

/-- C2: on a successful detection with a non-empty raw list, the Result's
text is the newline-joined concatenation of the block texts in emission
order, the blocks are the raw detections structured in emission order, and
whenever there are no blocks the text is empty. -/
theorem C2_text_is_joined_blocks (items : List RawDetection) (times : Option (List ℚ))
    (h : items ≠ []) :
    (process (Except.ok (some items, times))).text =
      String.intercalate "\n" (items.map RawDetection.text)
    ∧ (process (Except.ok (some items, times))).blocks = items.map mkBlock
    ∧ ∀ o : DetectOutcome, (process o).blocks = [] → (process o).text = "" := by
  match items, h with
  | a :: its, _ =>
    refine ⟨by simp [process_cons], by simp [process_cons], ?_⟩
    intro o hb
    match o with
    | .error e => rfl
    | .ok (none, t) => rfl
    | .ok (some [], t) => rfl
    | .ok (some (b :: bs), t) => rw [process_cons] at hb; simp at hb

/-- Witness for C2 at a concrete two-detection outcome. -/
theorem C2_witness :
    (process (Except.ok (some [sampleDet, sampleDet2], none))).text =
      String.intercalate "\n" ([sampleDet, sampleDet2].map RawDetection.text)
    ∧ (process (Except.ok (some [sampleDet, sampleDet2], none))).blocks =
      [sampleDet, sampleDet2].map mkBlock :=
  ⟨(C2_text_is_joined_blocks [sampleDet, sampleDet2] none (List.cons_ne_nil _ _)).1,
   (C2_text_is_joined_blocks [sampleDet, sampleDet2] none (List.cons_ne_nil _ _)).2.1⟩

/-- C3: the base64 handler reports the invalid-data-URI error on a `data:`
prefix without a comma, a distinct base64 error when decoding the (possibly
stripped) string fails, a distinct image-format error when the bytes cannot
be opened as an image, and every error-bearing response it returns has empty
text and blocks; as a total function it never raises past its boundary. -/
theorem C3_base64_error_paths (env : Env) (s : String) :
    (pyStartswith s "data:" = true → pyHasComma s = false →
      ocr_from_base64 env s = { text := "", blocks := [], error := some "Invalid data URI format" })
    ∧ (∀ s' e, stripDataURI s = Except.ok s' → env.b64decode s' = Except.error e →
      ocr_from_base64 env s = { text := "", blocks := [], error := some ("Invalid base64: " ++ e) })
    ∧ (∀ s' bs e, stripDataURI s = Except.ok s' → env.b64decode s' = Except.ok bs →
        env.imageOpen bs = Except.error e →
      ocr_from_base64 env s = { text := "", blocks := [], error := some ("Invalid image format: " ++ e) })
    ∧ ∀ err, (ocr_from_base64 env s).error = some err →
        (ocr_from_base64 env s).text = "" ∧ (ocr_from_base64 env s).blocks = [] := by
  refine ⟨?_, ?_, ?_, ?_⟩
  · intro h1 h2
    simp [ocr_from_base64, stripDataURI, h1, h2]
  · intro s' e h1 h2
    simp [ocr_from_base64, h1, h2]
  · intro s' bs e h1 h2 h3
    simp [ocr_from_base64, h1, h2, h3]
  · intro err
    cases hs : stripDataURI s with
    | error e =>
      intro _
      simp [ocr_from_base64, hs]
    | ok s' =>
      cases hb : env.b64decode s' with
      | error e =>
        intro _
        simp [ocr_from_base64, hs, hb]
      | ok bs =>
        cases hi : env.imageOpen bs with
        | error e =>
          intro _
          simp [ocr_from_base64, hs, hb, hi]
        | ok img =>
          have hcall : ocr_from_base64 env s =
              (process (env.detect (normalizeMode env img))).to_dict := by
            simp [ocr_from_base64, hs, hb, hi]
          rw [hcall]
          exact to_dict_error_empty _ err

/-- Witness for C3 on the three concrete error paths. -/
theorem C3_witness :
    ocr_from_base64 envDetectNone "data:image/png;base64" =
      { text := "", blocks := [], error := some "Invalid data URI format" }
    ∧ ocr_from_base64 envB64Fail "QUJD" =
      { text := "", blocks := [], error := some ("Invalid base64: " ++ "bad padding") }
    ∧ ocr_from_base64 envImgFail "QUJD" =
      { text := "", blocks := [], error := some ("Invalid image format: " ++ "cannot identify") } :=
  ⟨(C3_base64_error_paths envDetectNone "data:image/png;base64").1 (by decide) (by decide),
   (C3_base64_error_paths envB64Fail "QUJD").2.1 "QUJD" "bad padding" rfl rfl,
   (C3_base64_error_paths envImgFail "QUJD").2.2.1 "QUJD" [] "cannot identify" rfl rfl rfl⟩

/-- C4: the path handler validates non-empty, absolute, existing, regular
file, in that order and short-circuiting, each failure yielding its distinct
error message with empty text and blocks; as a total function it never
raises past its boundary. -/
theorem C4_path_validation_order (env : Env) (p : String) :
    (p = "" →
      ocr_from_path env p = { text := "", blocks := [], error := some "File path is required" })
    ∧ (p ≠ "" → isabs p = false →
      ocr_from_path env p = { text := "", blocks := [], error := some "File path must be absolute" })
    ∧ (p ≠ "" → isabs p = true → env.pathExists p = false →
      ocr_from_path env p = { text := "", blocks := [], error := some ("File not found: " ++ p) })
    ∧ (p ≠ "" → isabs p = true → env.pathExists p = true → env.isfile p = false →
      ocr_from_path env p = { text := "", blocks := [], error := some ("Not a file: " ++ p) })
    ∧ ∀ err, (ocr_from_path env p).error = some err →
        (ocr_from_path env p).text = "" ∧ (ocr_from_path env p).blocks = [] := by
  refine ⟨?_, ?_, ?_, ?_, ?_⟩
  · intro h1
    simp [ocr_from_path, h1]
  · intro h1 h2
    simp [ocr_from_path, h1, h2]
  · intro h1 h2 h3
    simp [ocr_from_path, h1, h2, h3]
  · intro h1 h2 h3 h4
    simp [ocr_from_path, h1, h2, h3, h4]
  · intro err
    by_cases h1 : p = ""
    · intro _
      simp [ocr_from_path, h1]
    · by_cases h2 : isabs p = false
      · intro _
        simp [ocr_from_path, h1, h2]
      · rw [Bool.not_eq_false] at h2
        by_cases h3 : env.pathExists p = false
        · intro _
          simp [ocr_from_path, h1, h2, h3]
        · rw [Bool.not_eq_false] at h3
          by_cases h4 : env.isfile p = false
          · intro _
            simp [ocr_from_path, h1, h2, h3, h4]
          · rw [Bool.not_eq_false] at h4
            cases hi : env.imageOpenPath p with
            | error e =>
              intro _
              simp [ocr_from_path, h1, h2, h3, h4, hi]
            | ok img =>
              have hcall : ocr_from_path env p =
                  (process (env.detect (normalizeMode env img))).to_dict := by
                simp [ocr_from_path, h1, h2, h3, h4, hi]
              rw [hcall]
              exact to_dict_error_empty _ err

/-- Witness for C4 on the four concrete validation failures, including the
spec's `/nonexistent/file.png` and `/some/directory` examples. -/
theorem C4_witness :
    ocr_from_path envDetectNone "" =
      { text := "", blocks := [], error := some "File path is required" }
    ∧ ocr_from_path envDetectNone "relative/path.png" =
      { text := "", blocks := [], error := some "File path must be absolute" }
    ∧ ocr_from_path envNoFile "/nonexistent/file.png" =
      { text := "", blocks := [], error := some ("File not found: " ++ "/nonexistent/file.png") }
    ∧ ocr_from_path envDir "/some/directory" =
      { text := "", blocks := [], error := some ("Not a file: " ++ "/some/directory") } :=
  ⟨(C4_path_validation_order envDetectNone "").1 rfl,
   (C4_path_validation_order envDetectNone "relative/path.png").2.1 (by decide) (by decide),
   (C4_path_validation_order envNoFile "/nonexistent/file.png").2.2.1 (by decide) (by decide) rfl,
   (C4_path_validation_order envDir "/some/directory").2.2.2.1 (by decide) (by decide) rfl rfl⟩

/-- C5: an empty or null raw detection list yields the "no text found"
success: empty text and blocks, `elapsed_seconds` equal to the sum of the
per-stage times (0 when that list is empty or absent), and no error. -/
theorem C5_no_text_found (raw : Option (List RawDetection)) (times : Option (List ℚ))
    (h : raw = none ∨ raw = some []) :
    process (Except.ok (raw, times)) =
      { text := "", blocks := [], elapsed_seconds := totalElapsed times, error := none }
    ∧ totalElapsed none = 0 ∧ totalElapsed (some []) = 0
    ∧ ∀ ts : List ℚ, totalElapsed (some ts) = ts.sum := by
  refine ⟨?_, rfl, rfl, ?_⟩
  · rcases h with rfl | rfl
    · exact process_none times
    · exact process_nil times
  · intro ts
    cases ts with
    | nil => rfl
    | cons a l => rfl

/-- Witness for C5 at a concrete null detection list with one timed stage. -/
theorem C5_witness :
    process (Except.ok ((none : Option (List RawDetection)), some [(1 : ℚ) / 2])) =
      { text := "", blocks := [], elapsed_seconds := totalElapsed (some [(1 : ℚ) / 2]),
        error := none } :=
  (C5_no_text_found none (some [(1 : ℚ) / 2]) (Or.inl rfl)).1

/-- C6: when the detector honors its documented interface (quadrilateral
boxes of 4 points, confidences in the unit interval), every block `process`
produces has a 4-point box and a confidence in the unit interval equal to
the raw confidence rounded to 3 decimal places. -/
theorem C6_block_invariants (items : List RawDetection) (times : Option (List ℚ))
    (hin : ∀ r ∈ items, r.box.length = 4 ∧ 0 ≤ r.confidence ∧ r.confidence ≤ 1) :
    ∀ b ∈ (process (Except.ok (some items, times))).blocks,
      b.box.length = 4 ∧ (0 ≤ b.confidence ∧ b.confidence ≤ 1) ∧
      ∃ r ∈ items, b = mkBlock r ∧ b.confidence = round3 r.confidence := by
  intro b hb
  have hb' : b ∈ items.map mkBlock := by
    cases items with
    | nil => rw [process_nil] at hb; simp at hb
    | cons a its => rw [process_cons] at hb; simpa using hb
  obtain ⟨r, hr, hbr⟩ := List.mem_map.mp hb'
  obtain ⟨hbox, hc0, hc1⟩ := hin r hr
  subst hbr
  exact ⟨by simp [mkBlock, hbox], ⟨round3_nonneg _ hc0, round3_le_one _ hc1⟩,
    r, hr, rfl, rfl⟩

/-- Witness for C6 at a concrete one-detection outcome. -/
theorem C6_witness :
    (mkBlock sampleDet).box.length = 4
    ∧ (0 ≤ (mkBlock sampleDet).confidence ∧ (mkBlock sampleDet).confidence ≤ 1)
    ∧ ∃ r ∈ [sampleDet], mkBlock sampleDet = mkBlock r ∧
        (mkBlock sampleDet).confidence = round3 r.confidence :=
  C6_block_invariants [sampleDet] none
    (by
      intro r hr
      rw [List.mem_singleton] at hr
      subst hr
      exact ⟨rfl, by norm_num [sampleDet], by norm_num [sampleDet]⟩)
    (mkBlock sampleDet)
    (by rw [process_cons]; simp)

/-- C7 counterexample: with a palette-mode image and the mode-sensitive
detector `envModeP`, `ocr_from_base64` on the encoded bytes and `process`
directly on the decoded (un-normalized) image disagree on the recognized
text, even though the decode chain of the claim holds at these inputs. -/
theorem C7_counterexample :
    (ocr_from_base64 envModeP "QUJD").text ≠
      ((process (envModeP.detect (Image.mk "P" []))).to_dict).text ∧
    envModeP.imageOpen [] = Except.ok (Image.mk "P" []) ∧
    envModeP.b64decode "QUJD" = Except.ok [] ∧
    pyStartswith "QUJD" "data:" = false := by
  refine ⟨?_, rfl, rfl, by decide⟩
  decide

/-- C7 (amended): when the input is a plain base64 string that decodes to an
image, `ocr_from_base64` returns exactly the serialized Result of `process`
on the mode-normalized decoded image — and on the decoded image itself
whenever its mode is not one of the converted modes. -/
theorem C7_roundtrip (env : Env) (enc : String) (bs : Bytes) (img : Image)
    (h1 : pyStartswith enc "data:" = false)
    (h2 : env.b64decode enc = Except.ok bs)
    (h3 : env.imageOpen bs = Except.ok img) :
    ocr_from_base64 env enc = (process (env.detect (normalizeMode env img))).to_dict
    ∧ (rgbConvertModes.contains img.mode = false →
        ocr_from_base64 env enc = (process (env.detect img)).to_dict) := by
  have hstrip : stripDataURI enc = Except.ok enc := by simp [stripDataURI, h1]
  have hmain : ocr_from_base64 env enc = (process (env.detect (normalizeMode env img))).to_dict := by
    simp [ocr_from_base64, hstrip, h2, h3]
  refine ⟨hmain, fun hm => ?_⟩
  rw [hmain]
  simp at hm
  simp [normalizeMode, hm]

/-- Witness for C7 at a concrete encoded image in RGB mode. -/
theorem C7_witness :
    ocr_from_base64 envDetectNone "QUJD" =
      (process (envDetectNone.detect (normalizeMode envDetectNone (Image.mk "RGB" [])))).to_dict :=
  (C7_roundtrip envDetectNone "QUJD" [] (Image.mk "RGB" []) (by decide) rfl rfl).1

/-- C8: the handlers convert the decoded image to RGB exactly when its mode
is one of RGBA, P, LA, L, and pass it unchanged otherwise; consequently an
RGBA image and its RGB-converted equivalent produce the same recognized
text. -/
theorem C8_mode_normalization (env : Env) (img : Image) :
    (rgbConvertModes.contains img.mode = true → normalizeMode env img = env.convertRGB img)
    ∧ (rgbConvertModes.contains img.mode = false → normalizeMode env img = img)
    ∧ ∀ img' : Image, img.mode = "RGBA" → env.convertRGB img = img' → img'.mode = "RGB" →
        (process (env.detect (normalizeMode env img))).text =
          (process (env.detect (normalizeMode env img'))).text := by
  refine ⟨fun h => ?_, fun h => ?_, ?_⟩
  · simp at h
    simp [normalizeMode, h]
  · simp at h
    simp [normalizeMode, h]
  · intro img' hmode hconv hmode'
    have h1 : img.mode ∈ rgbConvertModes := by rw [hmode]; decide
    have h2 : img'.mode ∉ rgbConvertModes := by rw [hmode']; decide
    rw [show normalizeMode env img = env.convertRGB img from by simp [normalizeMode, h1],
      show normalizeMode env img' = img' from by simp [normalizeMode, h2], hconv]

/-- Witness for C8 at a concrete RGBA image and its RGB conversion. -/
theorem C8_witness :
    (process (envDetectNone.detect (normalizeMode envDetectNone (Image.mk "RGBA" [])))).text =
      (process (envDetectNone.detect (normalizeMode envDetectNone (Image.mk "RGB" [])))).text :=
  (C8_mode_normalization envDetectNone (Image.mk "RGBA" [])).2.2 (Image.mk "RGB" []) rfl rfl rfl

/-- C9: when detection succeeds and no detector-emitted block text contains
a line-boundary character, splitting the Result's text into lines yields at
most as many lines as there are blocks. -/
theorem C9_splitlines_le_blocks (raw : Option (List RawDetection)) (times : Option (List ℚ))
    (h : ∀ items, raw = some items → ∀ r ∈ items, ∀ c ∈ r.text.toList, isLineBreak c = false) :
    (pySplitlines (process (Except.ok (raw, times))).text).length ≤
      (process (Except.ok (raw, times))).blocks.length := by
  cases raw with
  | none =>
    rw [process_none]
    simp [pySplitlines, splitlinesGo]
  | some items =>
    cases items with
    | nil =>
      rw [process_nil]
      simp [pySplitlines, splitlinesGo]
    | cons a its =>
      simp only [process_cons]
      have hQ : ∀ u ∈ ((a :: its).map RawDetection.text).map String.toList,
          ∀ c ∈ u, isLineBreak c = false := by
        intro u hu c hc
        obtain ⟨t, ht, rfl⟩ := List.mem_map.mp hu
        obtain ⟨r, hr, rfl⟩ := List.mem_map.mp ht
        exact h (a :: its) rfl r hr c hc
      unfold pySplitlines
      rw [intercalate_nl_toList]
      calc (splitlinesGo false []
            (joinNL (((a :: its).map RawDetection.text).map String.toList))).length
          ≤ (((a :: its).map RawDetection.text).map String.toList).length :=
            splitlinesGo_joinNL_le _ (by simp) hQ []
        _ = ((a :: its).map mkBlock).length := by simp

/-- Witness for C9 at a concrete two-detection outcome. -/
theorem C9_witness :
    (pySplitlines (process (Except.ok (some [sampleDet, sampleDet2], none))).text).length ≤
      (process (Except.ok (some [sampleDet, sampleDet2], none))).blocks.length :=
  C9_splitlines_le_blocks (some [sampleDet, sampleDet2]) none
    (by
      intro items hit
      injection hit with hit'
      subst hit'
      decide)

/-- C10 counterexample: a Result whose error field is set to the empty
string serializes without the error key, so the key's presence is not
equivalent to the error field being set. -/
theorem C10_counterexample :
    (OCRResult.mk "" [] 0 (some "")).error = some "" ∧
    ((OCRResult.mk "" [] 0 (some "")).to_dict).error = none :=
  ⟨rfl, by simp [OCRResult.to_dict]⟩

/-- C10 (amended): the serialized response carries the error key exactly
when the Result's error field holds a non-empty message, and then it carries
that message; a caught exception whose message is empty is serialized
without the error key. -/
theorem C10_amended_error_key (r : OCRResult) :
    (((r.to_dict).error).isSome = true ↔ ∃ e, r.error = some e ∧ e ≠ "") ∧
    ∀ e, r.error = some e → e ≠ "" → (r.to_dict).error = some e := by
  cases hr : r.error with
  | none =>
    refine ⟨?_, ?_⟩
    · simp [OCRResult.to_dict, hr]
    · intro e he
      cases he
  | some e0 =>
    by_cases he0 : e0 = ""
    · subst he0
      refine ⟨?_, ?_⟩
      · simp [OCRResult.to_dict, hr]
      · intro e he hne
        injection he with h
        exact absurd h.symm hne
    · refine ⟨?_, ?_⟩
      · simp only [OCRResult.to_dict, hr]
        constructor
        · intro _
          exact ⟨e0, rfl, he0⟩
        · intro _
          simp [he0]
      · intro e he _
        injection he with h
        subst h
        simp [OCRResult.to_dict, hr, he0]

/-- Witness for C10 at a concrete Result with a non-empty error message. -/
theorem C10_witness :
    ((OCRResult.mk "" [] 0 (some "x")).to_dict).error = some "x" :=
  (C10_amended_error_key _).2 "x" rfl (by decide)
